import Mathlib

/-
Verification development for the my-redis server sources.

Shallow embedding conventions:
- A Rust byte is a Nat (values 0..255 in practice); a byte-string is a List Nat.
- A HashMap is an association list with first-match lookup and replace-or-append
  insertion; only lookup/insert/contains are used by the functions embedded here,
  for which this is an exact functional model.
- Machine integers (i64, usize) are Int/Nat with explicit range checks exactly
  where the Rust code checks them (checked_add / checked_sub / FromStr ranges).
- Rust code paths that panic (unwrap, unreachable, todo, assert) or that loop
  without consuming input are modelled by an Option result whose none value
  marks the abnormal outcome; normal returns are wrapped in some.
- Loops whose termination is not structural carry an explicit fuel argument;
  a fuel-exhaustion result is also none.  Fuel is an artifact of the embedding,
  not of the source, except where a theorem proves the source loop diverges for
  every fuel.
-/

set_option linter.unusedVariables false

/-- Byte strings are lists of byte values. -/
abbrev Bytes := List Nat

/-- ASCII bytes of a Lean string literal (used for protocol byte constants). -/
def str2bytes (s : String) : List Nat := s.toList.map Char.toNat

/-- Single-quote byte (0x27), kept out of string literals. -/
def quoteByte : List Nat := [39]

/-- Digit test for ASCII bytes, as used by integer FromStr. -/
def isDigitByte (b : Nat) : Bool := 48 ≤ b && b ≤ 57

/-- Accumulating decimal evaluation of a digit run; none on a non-digit byte. -/
def digitsVal : List Nat → Nat → Option Nat
  | [], acc => some acc
  | b :: rest, acc =>
    if isDigitByte b then digitsVal rest (acc * 10 + (b - 48)) else none

/-- Value of a non-empty all-digit byte run (Rust FromStr digit parsing). -/
def parseNatDigits (s : List Nat) : Option Nat :=
  match s with
  | [] => none
  | _ => digitsVal s 0

/-- Rust i64::from_str on the UTF-8 decoding of a byte string: optional sign,
one or more digits, result within the signed 64-bit range.  A byte string that
is not valid UTF-8 contains a byte that is not an ASCII digit or sign, so the
digit scan also rejects it. -/
def parseI64 (s : List Nat) : Option Int :=
  match s with
  | 43 :: rest =>
    match parseNatDigits rest with
    | some v => if v ≤ 9223372036854775807 then some (Int.ofNat v) else none
    | none => none
  | 45 :: rest =>
    match parseNatDigits rest with
    | some v => if v ≤ 9223372036854775808 then some (-(Int.ofNat v)) else none
    | none => none
  | _ =>
    match parseNatDigits s with
    | some v => if v ≤ 9223372036854775807 then some (Int.ofNat v) else none
    | none => none

/-- Rust usize::from_str (64-bit): optional plus sign, digits, unsigned range. -/
def parseUsize (s : List Nat) : Option Nat :=
  match s with
  | 43 :: rest =>
    match parseNatDigits rest with
    | some v => if v ≤ 18446744073709551615 then some v else none
    | none => none
  | _ =>
    match parseNatDigits s with
    | some v => if v ≤ 18446744073709551615 then some v else none
    | none => none

/-- Decimal ASCII digits of a Nat; the fuel argument only bounds the digit
count (digit count of n never exceeds n + 1), keeping the recursion
structural so that concrete values reduce definitionally. -/
def natToBytesAux : Nat → Nat → List Nat
  | 0, _ => []
  | fuel + 1, n =>
    if n < 10 then [48 + n] else natToBytesAux fuel (n / 10) ++ [48 + n % 10]

/-- Rust usize/u64 to_string as ASCII bytes. -/
def natToBytes (n : Nat) : List Nat := natToBytesAux (n + 1) n

/-- Rust i64 to_string as ASCII bytes: minus sign for negatives, no plus sign. -/
def intToBytes (i : Int) : List Nat :=
  if i < 0 then 45 :: natToBytes (-i).toNat else natToBytes i.toNat

/-- Reply values of output_value.rs (enum OutputValue). -/
inductive OutputValue where
  | SimpleString (v : List Nat)
  | Error (v : List Nat)
  | Integer (i : Int)
  | BulkString (v : List Nat)
  | Array (items : List OutputValue)
  | NullBulkString
  | NullArray
  | Ok

mutual

/-- RESP2 encoding of OutputValue (OutputValue::to_bytes_vec). -/
def toBytesVec : OutputValue → List Nat
  | .SimpleString v => 43 :: (v ++ [13, 10])
  | .Error v => 45 :: (v ++ [13, 10])
  | .Integer i => 58 :: (intToBytes i ++ [13, 10])
  | .BulkString v => 36 :: (natToBytes v.length ++ [13, 10] ++ v ++ [13, 10])
  | .Array items => 42 :: (natToBytes items.length ++ [13, 10] ++ toBytesVecList items)
  | .NullBulkString => [36, 45, 49, 13, 10]
  | .NullArray => [42, 45, 49, 13, 10]
  | .Ok => [43, 79, 75, 13, 10]

/-- Concatenated encodings of a reply list (the Array element loop). -/
def toBytesVecList : List OutputValue → List Nat
  | [] => []
  | v :: rest => toBytesVec v ++ toBytesVecList rest

end

/-- First-match lookup in an association list (HashMap::get). -/
def lookupA {α : Type} : List (Bytes × α) → Bytes → Option α
  | [], _ => none
  | (k, v) :: rest, key => if k = key then some v else lookupA rest key

/-- Replace-or-append insertion in an association list (HashMap::insert). -/
def insertA {α : Type} : List (Bytes × α) → Bytes → α → List (Bytes × α)
  | [], key, val => [(key, val)]
  | (k, v) :: rest, key, val =>
    if k = key then (key, val) :: rest else (k, v) :: insertA rest key val

/-- HashMap::contains_key. -/
def containsA {α : Type} (m : List (Bytes × α)) (key : Bytes) : Bool :=
  (lookupA m key).isSome

/-- Stored values of implementation/database/value.rs (enum Value). -/
inductive Value where
  | String (s : List Nat)
  | Hash (h : List (Bytes × List Nat))
  | List (l : List (List Nat))

/-- One database of implementation/database/map.rs (struct Map). -/
abbrev MapData := List (Bytes × Value)

/-- Error bytes: ERR value is not an integer. -/
def errNotInteger : List Nat := str2bytes "ERR value is not an integer"

/-- Error bytes: ERR integer overflow. -/
def errOverflow : List Nat := str2bytes "ERR integer overflow"

/-- Error bytes: ERR value is too large. -/
def errTooLarge : List Nat := str2bytes "ERR value is too large"

/-- Error bytes of Map::get for a non-String value. -/
def errWrongTypeGet : List Nat :=
  str2bytes "ERR wrong target type for " ++ quoteByte ++ str2bytes "get" ++ quoteByte

/-- Map::get of implementation/database/map.rs. -/
def mapGet (m : MapData) (key : Bytes) : OutputValue :=
  match lookupA m key with
  | none => .NullBulkString
  | some (.String s) => .BulkString s
  | some _ => .Error errWrongTypeGet

/-- Map::set of implementation/database/map.rs: always stores String(value)
and replies Ok. -/
def mapSet (m : MapData) (key : Bytes) (value : Bytes) : OutputValue × MapData :=
  (.Ok, insertA m key (.String value))

/-- Elements at even indices (Iterator::step_by(2) from index 0). -/
def stepBy2 {α : Type} : List α → List α
  | [] => []
  | [a] => [a]
  | a :: _ :: rest => a :: stepBy2 rest

/-- The pairwise insertion loop shared by mset and msetnx: for even i, insert
key_values[i] -> String(key_values[i+1]). -/
def insertPairs : MapData → List Bytes → MapData
  | m, k :: v :: rest => insertPairs (insertA m k (.String v)) rest
  | m, _ => m

/-- Map::msetnx of implementation/database/map.rs, kept exactly as written:
when no listed key exists the function returns Integer(0) without inserting,
and when some listed key exists it inserts every pair and returns Integer(1). -/
def msetnx (m : MapData) (keyValues : List Bytes) : OutputValue × MapData :=
  let anyKeyExists := (stepBy2 keyValues).any (fun k => containsA m k)
  if !anyKeyExists then (.Integer 0, m)
  else (.Integer 1, insertPairs m keyValues)

/-- Map::incr_decr_check_key_value: ok with the map unchanged when the key
holds an i64-parseable String, error otherwise; an absent key is created
holding the string 0 (byte 48). -/
def incrDecrCheckKeyValue (m : MapData) (key : Bytes) : Except OutputValue MapData :=
  match lookupA m key with
  | some (.String s) =>
    if (parseI64 s).isSome then .ok m else .error (.Error errNotInteger)
  | some _ => .error (.Error errNotInteger)
  | none => .ok (insertA m key (.String [48]))

/-- Map::incrby: check/create, then checked_add with the stored integer and
write back the decimal rendering.  The none result marks the unreachable
branch (the check guarantees a parseable String). -/
def incrby (m : MapData) (key : Bytes) (n : Int) : Option (OutputValue × MapData) :=
  match incrDecrCheckKeyValue m key with
  | .error e => some (e, m)
  | .ok m1 =>
    match lookupA m1 key with
    | some (.String s) =>
      match parseI64 s with
      | some old =>
        let newv := old + n
        if -9223372036854775808 ≤ newv ∧ newv ≤ 9223372036854775807 then
          some (.Integer newv, insertA m1 key (.String (intToBytes newv)))
        else
          some (.Error errOverflow, m1)
      | none => none
    | _ => none

/-- Map::decrby: same as incrby with checked_sub. -/
def decrby (m : MapData) (key : Bytes) (n : Int) : Option (OutputValue × MapData) :=
  match incrDecrCheckKeyValue m key with
  | .error e => some (e, m)
  | .ok m1 =>
    match lookupA m1 key with
    | some (.String s) =>
      match parseI64 s with
      | some old =>
        let newv := old - n
        if -9223372036854775808 ≤ newv ∧ newv ≤ 9223372036854775807 then
          some (.Integer newv, insertA m1 key (.String (intToBytes newv)))
        else
          some (.Error errOverflow, m1)
      | none => none
    | _ => none

/-- MapStringCommands::incr default method: incrby with delta 1. -/
def incr (m : MapData) (key : Bytes) : Option (OutputValue × MapData) := incrby m key 1

/-- MapStringCommands::decr default method: decrby with delta 1. -/
def decr (m : MapData) (key : Bytes) : Option (OutputValue × MapData) := decrby m key 1

/-- One database of executor/core/database.rs (struct Map storing OutputValue). -/
abbrev CoreMapData := List (Bytes × OutputValue)

/-- Map::get of executor/core/database.rs. -/
def coreGet (m : CoreMapData) (key : Bytes) : OutputValue :=
  match lookupA m key with
  | some v => v
  | none => .NullBulkString

/-- Map::set of executor/core/database.rs: rejects values longer than
512 * 1024 * 1024 bytes, otherwise stores BulkString(value) and replies Ok. -/
def coreSet (m : CoreMapData) (key : Bytes) (value : Bytes) : OutputValue × CoreMapData :=
  if value.length > 536870912 then (.Error errTooLarge, m)
  else (.Ok, insertA m key (.BulkString value))

/-- SimpleCommand::is_arity_correct (shared by every command variant). -/
def isArityCorrect (arityMin : Nat) (arityMax : Option Nat) (arity : Nat) : Bool :=
  if arity < arityMin then false
  else
    match arityMax with
    | some mx => arity ≤ mx
    | none => true

/-- Error bytes of an arity failure for the named command. -/
def wrongArityMsg (name : List Nat) : List Nat :=
  str2bytes "ERR wrong number of arguments for " ++ quoteByte ++ name ++ quoteByte

/-- The registered incr simple command of implementation/command.rs:
arity [1,1], then Map::incr on the first argument.  The none result marks the
unreachable get_first panic on an empty argument list. -/
def incrCommand (db : MapData) (input : List Bytes) : Option (OutputValue × MapData) :=
  if !isArityCorrect 1 (some 1) input.length then
    some (.Error (wrongArityMsg (str2bytes "incr")), db)
  else
    match input with
    | key :: _ => incr db key
    | [] => none

/-- The registered incrby simple command of implementation/command.rs:
arity [2,2], parse the second argument as i64 (error ERR value is not an
integer when it does not parse), then Map::incrby. -/
def incrbyCommand (db : MapData) (input : List Bytes) : Option (OutputValue × MapData) :=
  if !isArityCorrect 2 (some 2) input.length then
    some (.Error (wrongArityMsg (str2bytes "incrby")), db)
  else
    match input with
    | key :: value :: _ =>
      match parseI64 value with
      | none => some (.Error errNotInteger, db)
      | some n => incrby db key n
    | _ => none

/-- Character-class elements of executor/core/glob.rs (enum PatElement);
Range lo hi stands for the inclusive Rust range lo..=hi. -/
inductive PatElement where
  | Char (c : Nat)
  | Range (lo hi : Nat)

/-- Pattern nodes of executor/core/glob.rs (enum Node). -/
inductive Node where
  | Chars (v : List Nat)
  | Question
  | Star
  | Pat (els : List PatElement)
  | NoPat (els : List PatElement)

/-- Node::is_star. -/
def isStarNode : Node → Bool
  | .Star => true
  | _ => false

/-- Test used by the Question/Star specialization of Finder::new. -/
def isQuestionOrStar : Node → Bool
  | .Question => true
  | .Star => true
  | _ => false

/-- Specialized evaluators of executor/core/glob.rs (enum Finder). -/
inductive Finder where
  | NoMatch
  | AllMatch
  | AllMatchWithLen (n : Nat)
  | SimpleMatch (v : List Nat)
  | FindNeedle (v : List Nat)
  | RequiresMatch (nodes : List Node)

/-- The in-bracket reader loop of compile_pattern: consumes bytes after an
opening bracket up to the closing bracket or the end of the pattern, returning
the collected class content and the remaining pattern bytes.  A trailing
backslash ends the loop; a dash grabs the following byte verbatim (a dash at
the very end is pushed and the next iteration ends the loop). -/
def readBracket : List Nat → List Nat → List Nat × List Nat
  | [], buf => (buf, [])
  | 92 :: rest, buf =>
    match rest with
    | 91 :: rest2 => readBracket rest2 (buf ++ [91])
    | c :: rest2 => readBracket rest2 (buf ++ [92, c])
    | [] => (buf, [])
  | 45 :: rest, buf =>
    match rest with
    | c :: rest2 => readBracket rest2 (buf ++ [45, c])
    | [] => (buf ++ [45], [])
  | 93 :: rest, buf => (buf, rest)
  | c :: rest, buf => readBracket rest (buf ++ [c])

/-- The element loop of compile_bracket: a dash pops the previous buffered
byte, flushes the rest of the buffer as Char elements and forms an inclusive
range with the following byte (swapped when descending); a dash with nothing
buffered is a plain dash; a trailing dash makes the class compile to none. -/
def compileBracketGo : List Nat → List Nat → List PatElement → Option (List PatElement)
  | [], buf, elems => some (elems ++ buf.map PatElement.Char)
  | 45 :: rest, buf, elems =>
    match buf.getLast? with
    | none => compileBracketGo rest [45] elems
    | some ch2 =>
      let elems2 := elems ++ buf.dropLast.map PatElement.Char
      match rest with
      | [] => none
      | ch3 :: rest2 =>
        let rng := if ch2 > ch3 then PatElement.Range ch3 ch2 else PatElement.Range ch2 ch3
        compileBracketGo rest2 [] (elems2 ++ [rng])
  | c :: rest, buf, elems => compileBracketGo rest (buf ++ [c]) elems

/-- compile_bracket of executor/core/glob.rs: a leading caret inverts the
class (NoPat), otherwise Pat. -/
def compileBracket (inner : List Nat) : Option Node :=
  match inner with
  | 94 :: rest => (compileBracketGo rest [] []).map Node.NoPat
  | _ => (compileBracketGo inner [] []).map Node.Pat

/-- Push the pending literal buffer as a Chars node when it is non-empty. -/
def flushBuf (buf : List Nat) (nodes : List Node) : List Node :=
  if buf = [] then nodes else nodes ++ [Node.Chars buf]

/-- The main loop of compile_pattern, before optimise_nodes runs.  Every
iteration consumes at least one pattern byte, so the fuel argument (seeded
with the pattern length plus one) never runs out; none is the Rust None
return (empty class, class ending in a dash) or fuel exhaustion. -/
def collectGo : Nat → List Nat → List Nat → List Node → Option (List Node)
  | 0, _, _, _ => none
  | _ + 1, [], buf, nodes => some (flushBuf buf nodes)
  | fuel + 1, 42 :: rest, buf, nodes =>
    collectGo fuel rest [] (flushBuf buf nodes ++ [Node.Star])
  | fuel + 1, 63 :: rest, buf, nodes =>
    collectGo fuel rest [] (flushBuf buf nodes ++ [Node.Question])
  | fuel + 1, 91 :: rest, buf, nodes =>
    let br := readBracket rest []
    if br.1 = [] then none
    else if br.1 = [94] then collectGo fuel br.2 [] (flushBuf buf nodes ++ [Node.Question])
    else
      match compileBracket br.1 with
      | none => none
      | some nd => collectGo fuel br.2 [] (flushBuf buf nodes ++ [nd])
  | fuel + 1, 92 :: rest, buf, nodes =>
    match rest with
    | c :: rest2 =>
      if c = 42 || c = 63 || c = 91 then collectGo fuel rest2 (buf ++ [c]) nodes
      else collectGo fuel rest2 (buf ++ [92, c]) nodes
    | [] => collectGo fuel [] (buf ++ [92]) nodes
  | fuel + 1, c :: rest, buf, nodes => collectGo fuel rest (buf ++ [c]) nodes

/-- compile_pattern of executor/core/glob.rs up to (not including) the final
optimise_nodes call: none for the empty pattern and for the classes that
compile to no-match. -/
def compilePattern (pattern : List Nat) : Option (List Node) :=
  if pattern = [] then none
  else collectGo (pattern.length + 1) pattern [] []

/-- One scan of the while loop inside optimise_nodes: builds new_nodes from
adjacent pairs (merging Star Star and Chars Chars) and reports whether any
merge happened.  The loop runs while i < len - 1, so a final unpaired node is
not pushed - faithful to the source, whose new_nodes is discarded anyway. -/
def optimisePass : List Node → List Node × Bool
  | [] => ([], false)
  | [_] => ([], false)
  | Node.Star :: Node.Star :: rest =>
    let r := optimisePass rest
    (Node.Star :: r.1, true)
  | Node.Chars v1 :: Node.Chars v2 :: rest =>
    let r := optimisePass rest
    (Node.Chars (v1 ++ v2) :: r.1, true)
  | a :: rest =>
    let r := optimisePass rest
    (a :: r.1, r.2)

/-- optimise_nodes of executor/core/glob.rs, exactly as written: the outer
loop returns nodes when they are short or when a scan changes nothing, and
otherwise repeats the scan on the same unmodified nodes (new_nodes is never
assigned back), so a changed scan loops forever; the fuel argument counts the
outer-loop iterations and none marks non-termination. -/
def optimiseNodes : Nat → List Node → Option (List Node)
  | 0, _ => none
  | fuel + 1, nodes =>
    if nodes.length ≤ 1 then some nodes
    else if (optimisePass nodes).2 then optimiseNodes fuel nodes
    else some nodes

/-- Question-node test used for the question-mark count of Finder::new. -/
def isQuestion1 : Node → Bool
  | .Question => true
  | _ => false

/-- The specialization chain of Finder::new after compilation succeeds. -/
def finderSelect (nodes : List Node) : Finder :=
  match nodes with
  | [Node.Star] => Finder.AllMatch
  | [Node.Chars v] => Finder.SimpleMatch v
  | [Node.Star, Node.Chars v, Node.Star] => Finder.FindNeedle v
  | _ =>
    if nodes.all isQuestionOrStar then
      let qs := (nodes.filter isQuestion1).length
      if qs = 0 then Finder.RequiresMatch nodes else Finder.AllMatchWithLen qs
    else Finder.RequiresMatch nodes

/-- Finder::new of executor/core/glob.rs: NoMatch when compilation fails,
otherwise the specialization of the optimised nodes.  The fuel bounds the
optimise_nodes outer loop; none marks its non-termination. -/
def finderNew (fuel : Nat) (pattern : List Nat) : Option Finder :=
  match compilePattern pattern with
  | none => some Finder.NoMatch
  | some raw => (optimiseNodes fuel raw).map finderSelect

/-- Byte test against a class element list (the Pat/NoPat scan of run_node). -/
def patElemsMatch (els : List PatElement) (b : Nat) : Bool :=
  match els with
  | [] => false
  | PatElement.Char c :: rest => if b = c then true else patElemsMatch rest b
  | PatElement.Range lo hi :: rest => if lo ≤ b ∧ b ≤ hi then true else patElemsMatch rest b

/-- Rust slice get over the range pos..patLen, exactly as run_node calls it
(input.get(pos..pat.len()), the upper bound being the pattern length rather
than pos plus the pattern length). -/
def sliceGet (input : List Nat) (pos patLen : Nat) : Option (List Nat) :=
  if pos ≤ patLen ∧ patLen ≤ input.length then some ((input.take patLen).drop pos)
  else none

/-- run_node of executor/core/glob.rs: nodes are walked left to right, a Star
turns on skip mode, and the inner skipping loop advances pos.  The fuel
argument bounds loop iterations; none marks the inner loop spinning forever
(a class node that does not match with skip mode off leaves pos unchanged). -/
def runNode : Nat → List Nat → Nat → Bool → List Node → Option Bool
  | 0, _, _, _, _ => none
  | fuel + 1, input, pos, skip, nodes =>
    match nodes with
    | [] => some (skip || pos == input.length)
    | Node.Star :: rest => runNode fuel input pos true rest
    | node :: rest =>
      if pos ≥ input.length then some false
      else
        match node with
        | Node.Star => none
        | Node.Chars pat =>
          match sliceGet input pos pat.length with
          | none => some false
          | some s =>
            if s = pat then runNode fuel input (pos + pat.length) false rest
            else if !skip then some false
            else runNode fuel input (pos + 1) skip (Node.Chars pat :: rest)
        | Node.Question => runNode fuel input (pos + 1) false rest
        | Node.Pat els =>
          if patElemsMatch els (input.getD pos 0) then runNode fuel input (pos + 1) false rest
          else if skip then some false
          else runNode fuel input pos skip (Node.Pat els :: rest)
        | Node.NoPat els =>
          if patElemsMatch els (input.getD pos 0) then runNode fuel input (pos + 1) false rest
          else if skip then some false
          else runNode fuel input pos skip (Node.NoPat els :: rest)

/-- Needle prefix test (bytes). -/
def listPrefixOf : List Nat → List Nat → Bool
  | [], _ => true
  | _ :: _, [] => false
  | a :: as2, b :: bs => a == b && listPrefixOf as2 bs

/-- memmem::find(..).is_some(): the needle occurs contiguously in the input. -/
def memFind : List Nat → List Nat → Bool
  | [], needle => listPrefixOf needle []
  | hay@(_ :: rest), needle => listPrefixOf needle hay || memFind rest needle

/-- Finder::do_match of executor/core/glob.rs; the AllMatchWithLen evaluator
compares the input length for equality with the stored count. -/
def doMatch (fuel : Nat) (f : Finder) (input : List Nat) : Option Bool :=
  match f with
  | .NoMatch => some false
  | .AllMatch => some true
  | .AllMatchWithLen n => some (input.length == n)
  | .SimpleMatch v => some (input == v)
  | .FindNeedle needle => some (memFind input needle)
  | .RequiresMatch nodes => runNode fuel input 0 false nodes

/-- Values produced by the RESP parser of parser.rs (the BulkString and Array
constructors of crate::value::Value are the only ones it builds). -/
inductive RValue where
  | BulkString (v : List Nat)
  | Array (items : List RValue)

/-- The length-line reader loop shared by Parser::parse_resp and
RespArrayParser::parse_item: pops bytes until a carriage return, then demands
a line feed.  none marks the abnormal outcomes of the source: the todo panic
when the carriage return is not followed by a line feed (or is the last byte),
and the loop spinning forever when the buffer runs out before a carriage
return (pop_front returning None just retries). -/
def readLengthLine : List Nat → Option (List Nat × List Nat)
  | [] => none
  | 13 :: rest =>
    match rest with
    | 10 :: rest2 => some ([], rest2)
    | _ => none
  | c :: rest =>
    match readLengthLine rest with
    | some (lenb, r) => some (c :: lenb, r)
    | none => none

/-- RespArrayParser::parse with parse_item inlined (the Array arm of
parse_item constructs a sub-parser and calls parse on it).  The first
argument is recursion fuel for nested arrays; count is the remaining
item count of the for loop.  Results: none for a panic or unreachable branch
(bad type byte, empty buffer pop, length parse failure, missing bulk-string
terminator) or fuel exhaustion; some (none, rest) when an item returned None
(incomplete bulk string), with rest the buffer as the source leaves it; and
some (some v, rest) for a parsed value. -/
def parseItems : Nat → Nat → List Nat → List RValue → Option (Option RValue × List Nat)
  | 0, _, _, _ => none
  | _ + 1, 0, buf, acc => some (some (.Array acc), buf)
  | fuel + 1, count + 1, buf, acc =>
    match buf with
    | [] => none
    | ch :: rest =>
      if ch = 42 then
        match readLengthLine rest with
        | none => none
        | some (lenb, rest2) =>
          match parseUsize lenb with
          | none => none
          | some len =>
            match parseItems fuel len rest2 [] with
            | none => none
            | some (none, rest3) => some (none, rest3)
            | some (some v, rest3) => parseItems fuel count rest3 (acc ++ [v])
      else if ch = 36 then
        match readLengthLine rest with
        | none => none
        | some (lenb, rest2) =>
          match parseUsize lenb with
          | none => none
          | some len =>
            if rest2.length < len + 2 then some (none, rest2)
            else
              match rest2.drop len with
              | 13 :: 10 :: rest4 =>
                parseItems fuel count rest4 (acc ++ [RValue.BulkString (rest2.take len)])
              | _ => none
      else none

/-- Parser::parse_resp of parser.rs: pop the leading star, read the declared
element count, run the array sub-parser.  some (some v, rest) pushes v to the
value buffer; some (none, rest) pushes nothing; in both cases rest is exactly
the byte buffer the parser keeps afterwards.  none marks the panicking
branches (a non-star type byte, an empty buffer) and fuel exhaustion. -/
def parseResp (fuel : Nat) (buf : List Nat) : Option (Option RValue × List Nat) :=
  match buf with
  | [] => none
  | 42 :: rest =>
    match readLengthLine rest with
    | none => none
    | some (lenb, rest2) =>
      match parseUsize lenb with
      | none => none
      | some len => parseItems fuel len rest2 []
  | _ => none

/-- Registry shape of one container command: its name, whether it carries a
root handler, and its subcommand names in registration order. -/
structure ContainerShape where
  cname : String
  hasRootHandler : Bool
  subNames : List String

/-- Keys inserted by initialise_simple_commands of implementation/command.rs
(flushdb, then the ping/echo, misc, string groups; the list, hash and set
groups are empty). -/
def implSimpleNames : List String :=
  ["flushdb", "ping", "echo",
   "dbsize", "exists", "del", "keys",
   "get", "set", "mget", "mset", "msetnx", "append", "strlen",
   "incr", "decr", "incrby", "decrby", "incrbyfloat"]

/-- Keys inserted by initialise_controller_commands of
implementation/command.rs. -/
def implControllerNames : List String := ["select", "flushall", "swapdb"]

/-- Containers inserted by initialise_container_commands of
implementation/command.rs: only the command container has a root handler. -/
def implContainers : List ContainerShape :=
  [⟨"acl", false, ["cat"]⟩,
   ⟨"client", false, ["id", "list"]⟩,
   ⟨"command", true, ["count", "list"]⟩,
   ⟨"function", false, ["flush"]⟩,
   ⟨"config", false, ["get"]⟩]

/-- CommandStore::count of implementation/command.rs: simple count plus
controller count plus, per container, subcommand count plus one for a present
root handler, cast to i64. -/
def commandStoreCount : Int :=
  Int.ofNat
    (implSimpleNames.length + implControllerNames.length +
      (implContainers.map
        (fun c => c.subNames.length + (if c.hasRootHandler then 1 else 0))).sum)

/-- CommandStore::count wrapped in the Integer reply it returns. -/
def commandStoreCountReply : OutputValue := .Integer commandStoreCount

/-- Keys inserted by initialise_simple_commands of executor/core/command.rs. -/
def coreSimpleNames : List String :=
  ["ping", "echo", "get", "set", "select", "flushdb", "flushall", "swapdb",
   "dbsize", "exists", "append", "strlen", "incr", "decr", "incrby", "decrby",
   "incrbyfloat", "del", "keys"]

/-- Containers inserted by initialise_container_commands of
executor/core/command.rs (same shape as the implementation registry). -/
def coreContainers : List ContainerShape :=
  [⟨"acl", false, ["cat"]⟩,
   ⟨"client", false, ["id", "list"]⟩,
   ⟨"command", true, ["count", "list"]⟩,
   ⟨"function", false, ["flush"]⟩,
   ⟨"config", false, ["get"]⟩]

/-- The command count handler of executor/core/command.rs (the count
subcommand registered by initialise_container_commands): it replies with the
number of simple commands only, Integer(SIMPLE_COMMANDS.len() as i64). -/
def coreCommandCountReply : OutputValue := .Integer (Int.ofNat coreSimpleNames.length)

/-- Modelled from the spec: the dispatchable command names of a registry -
every simple name, every controller name, each container root name when the
container itself is dispatchable (has a root handler), and every subcommand
rendered under its container.  This definition follows the words of the
COMMAND COUNT specification and is compared against the source counting
functions. -/
def specDispatchableNames (simple controller : List String)
    (containers : List ContainerShape) : List String :=
  simple ++ controller ++
    (containers.map
      (fun c =>
        (if c.hasRootHandler then [c.cname] else []) ++
          c.subNames.map (fun s => c.cname ++ "|" ++ s))).flatten

/-- Continuation-byte test of UTF-8 validation. -/
def utf8Cont (b : Nat) : Bool := 128 ≤ b && b ≤ 191

/-- Validity of a byte string as UTF-8 (std::str::from_utf8 succeeding),
by the standard well-formed byte-sequence table. -/
def utf8Valid : List Nat → Bool
  | [] => true
  | b :: rest =>
    if b ≤ 127 then utf8Valid rest
    else if 194 ≤ b && b ≤ 223 then
      match rest with
      | c :: r => utf8Cont c && utf8Valid r
      | [] => false
    else if b = 224 then
      match rest with
      | c :: d :: r => (160 ≤ c && c ≤ 191) && utf8Cont d && utf8Valid r
      | _ => false
    else if (225 ≤ b && b ≤ 236) || (238 ≤ b && b ≤ 239) then
      match rest with
      | c :: d :: r => utf8Cont c && utf8Cont d && utf8Valid r
      | _ => false
    else if b = 237 then
      match rest with
      | c :: d :: r => (128 ≤ c && c ≤ 159) && utf8Cont d && utf8Valid r
      | _ => false
    else if b = 240 then
      match rest with
      | c :: d :: e :: r => (144 ≤ c && c ≤ 191) && utf8Cont d && utf8Cont e && utf8Valid r
      | _ => false
    else if 241 ≤ b && b ≤ 243 then
      match rest with
      | c :: d :: e :: r => utf8Cont c && utf8Cont d && utf8Cont e && utf8Valid r
      | _ => false
    else if b = 244 then
      match rest with
      | c :: d :: e :: r => (128 ≤ c && c ≤ 143) && utf8Cont d && utf8Cont e && utf8Valid r
      | _ => false
    else false

/-- BStr::to_str of bstr.rs: the same bytes when they decode as UTF-8 (string
and byte representations agree, UTF-8 being injective), none otherwise. -/
def toStr (s : List Nat) : Option (List Nat) :=
  if utf8Valid s then some s else none

/-- ASCII lowercasing of a byte string (str::to_ascii_lowercase acts only on
bytes 65..90, which is exact on the UTF-8 encoding). -/
def lowerBytes (s : List Nat) : List Nat :=
  s.map (fun b => if 65 ≤ b && b ≤ 90 then b + 32 else b)

/-- BStr::to_lower_string of bstr.rs. -/
def toLowerStr (s : List Nat) : Option (List Nat) :=
  if utf8Valid s then some (lowerBytes s) else none

/-- ACL categories of implementation/acl.rs. -/
inductive AclCategory where
  | Admin | Connection | Dangerous | Fast | Keyspace
  | Read | Slow | String | Write | Scripting

/-- FromStr for AclCategory: lowercase the decoded string, then match the ten
category names. -/
def parseAclCategory (s : List Nat) : Option AclCategory :=
  if utf8Valid s then
    let l := lowerBytes s
    if l = str2bytes "admin" then some .Admin
    else if l = str2bytes "connection" then some .Connection
    else if l = str2bytes "dangerous" then some .Dangerous
    else if l = str2bytes "fast" then some .Fast
    else if l = str2bytes "keyspace" then some .Keyspace
    else if l = str2bytes "read" then some .Read
    else if l = str2bytes "slow" then some .Slow
    else if l = str2bytes "string" then some .String
    else if l = str2bytes "write" then some .Write
    else if l = str2bytes "scripting" then some .Scripting
    else none
  else none

/-- COMMAND LIST filters of implementation/command.rs. -/
inductive CommandListFilter where
  | All
  | Category (cat : AclCategory)
  | Pattern (p : List Nat)

/-- Interrupts of implementation/mod.rs. -/
inductive Interrupt where
  | AclCat (c : Option AclCategory)
  | ClientList
  | ClientId
  | CommandCount
  | CommandList (f : CommandListFilter)
  | Select (i : Nat)
  | SwapDb (a b : Nat)
  | FlushAll

/-- A controller subcommand definition of implementation/command.rs: arity
bounds and handler.  The handler returns none on a panicking branch. -/
structure ControllerCmdDef where
  arityMin : Nat
  arityMax : Option Nat
  handler : List Bytes → Option (Except OutputValue Interrupt)

/-- A container command of implementation/command.rs: optional root handler
and subcommand table (keys are the registered subcommand names as bytes). -/
structure ContainerCmd where
  rootHandler : Option (List Bytes → Option (Except OutputValue Interrupt))
  subcommands : List (Bytes × ControllerCmdDef)

/-- Error bytes of an unknown-subcommand reply for the named container. -/
def unknownSubMsg (name : List Nat) : List Nat :=
  str2bytes "ERR unknown subcommand for " ++ quoteByte ++ name ++ quoteByte

/-- ControllerCommand::execute for a ControllerCommandDefinition: arity
check, then the handler. -/
def controllerCmdExecute (c : ControllerCmdDef) (name : List Nat)
    (input : List Bytes) : Option (Except OutputValue Interrupt) :=
  if !isArityCorrect c.arityMin c.arityMax input.length then
    some (.error (.Error (wrongArityMsg name)))
  else c.handler input

/-- ContainerCommand::is_arity_correct: a container without a root handler
requires at least one argument. -/
def containerIsArityCorrect (hasHandler : Bool) (arity : Nat) : Bool :=
  if !hasHandler then decide (arity ≥ 1) else true

/-- ContainerCommand::execute of implementation/command.rs: arity check; with
no arguments run the root handler; otherwise decode the first argument with
BStr::to_str (no lowercasing) and look it up verbatim in the subcommand
table, forwarding the remaining arguments; a failed decode or lookup replies
ERR unknown subcommand.  none marks the unreachable branch. -/
def containerExecute (c : ContainerCmd) (name : List Nat)
    (input : List Bytes) : Option (Except OutputValue Interrupt) :=
  if !containerIsArityCorrect c.rootHandler.isSome input.length then
    some (.error (.Error (wrongArityMsg name)))
  else
    match input, c.rootHandler with
    | [], some h => h []
    | [], none => none
    | sub :: rest, _ =>
      match toStr sub with
      | none => some (.error (.Error (unknownSubMsg name)))
      | some s =>
        match lookupA c.subcommands s with
        | none => some (.error (.Error (unknownSubMsg name)))
        | some cmd => controllerCmdExecute cmd (name ++ [32] ++ s) rest

/-- Error bytes: ERR invalid argument for command list. -/
def errInvalidArgCommandList : List Nat :=
  str2bytes "ERR invalid argument for " ++ quoteByte ++ str2bytes "command list" ++ quoteByte

/-- Error bytes: ERR filterby module is not implemented yet. -/
def errFilterbyModule : List Nat := str2bytes "ERR filterby module is not implemented yet"

/-- Error bytes: ERR unknown ACL category for command list. -/
def errUnknownAclCommandList : List Nat :=
  str2bytes "ERR unknown ACL category for " ++ quoteByte ++ str2bytes "command list" ++ quoteByte

/-- Error bytes: ERR unknown filter for command list. -/
def errUnknownFilter : List Nat :=
  str2bytes "ERR unknown filter for " ++ quoteByte ++ str2bytes "command list" ++ quoteByte

/-- Error bytes: ERR wrong number of arguments for command list. -/
def errWrongNumberCommandList : List Nat :=
  str2bytes "ERR wrong number of arguments for " ++ quoteByte ++ str2bytes "command list" ++ quoteByte

/-- Error bytes of the command container root handler. -/
def errCommandNotImplemented : List Nat :=
  str2bytes "ERR " ++ quoteByte ++ str2bytes "command" ++ quoteByte ++ str2bytes " is not implemented yet"

/-- Handler of the count subcommand of the command container. -/
def countSubHandler (input : List Bytes) : Option (Except OutputValue Interrupt) :=
  some (.ok .CommandCount)

/-- Handler of the list subcommand of the command container: no arguments
lists all; three arguments are filterby, a filter kind and its argument; any
other count is a wrong-number error. -/
def listSubHandler (input : List Bytes) : Option (Except OutputValue Interrupt) :=
  match input with
  | [] => some (.ok (.CommandList .All))
  | [fb, fc, fp] =>
    if toLowerStr fb ≠ some (str2bytes "filterby") then
      some (.error (.Error errInvalidArgCommandList))
    else
      match toLowerStr fc with
      | none => some (.error (.Error errInvalidArgCommandList))
      | some fcl =>
        if fcl = str2bytes "module" then some (.error (.Error errFilterbyModule))
        else if fcl = str2bytes "aclcat" then
          match (toLowerStr fp).bind parseAclCategory with
          | none => some (.error (.Error errUnknownAclCommandList))
          | some cat => some (.ok (.CommandList (.Category cat)))
        else if fcl = str2bytes "pattern" then
          some (.ok (.CommandList (.Pattern fp)))
        else some (.error (.Error errUnknownFilter))
  | _ => some (.error (.Error errWrongNumberCommandList))

/-- The command container of initialise_container_commands
(implementation/command.rs): a root handler replying not-implemented, and the
count and list subcommands. -/
def commandContainer : ContainerCmd :=
  ⟨some (fun _ => some (.error (.Error errCommandNotImplemented))),
   [(str2bytes "count", ⟨0, some 0, countSubHandler⟩),
    (str2bytes "list", ⟨0, some 3, listSubHandler⟩)]⟩

/-- Lookup after insertion of the same key finds the inserted value. -/
theorem lookupA_insertA_self {α : Type} (m : List (Bytes × α)) (k : Bytes) (v : α) :
    lookupA (insertA m k v) k = some v := by
  induction m with
  | nil => simp [insertA, lookupA]
  | cons p rest ih =>
    obtain ⟨k1, v1⟩ := p
    by_cases h : k1 = k
    · simp [insertA, h, lookupA]
    · simp [insertA, h, lookupA, ih]

/-- Inserting twice under the same key keeps only the second value. -/
theorem insertA_insertA {α : Type} (m : List (Bytes × α)) (k : Bytes) (a b : α) :
    insertA (insertA m k a) k b = insertA m k b := by
  induction m with
  | nil => simp [insertA]
  | cons p rest ih =>
    obtain ⟨k1, v1⟩ := p
    by_cases h : k1 = k
    · simp [insertA, h]
    · simp [insertA, h, ih]

/-- Claim C1: the claim states that MSETNX sets all pairs and replies
Integer(1) when none of the listed keys exists, and leaves the map unchanged
replying Integer(0) when one does.  Map::msetnx does the exact opposite: on
an empty map (no key present) it replies Integer(0) and stores nothing, and
with the key already present it overwrites and replies Integer(1). -/
theorem msetnx_guard_inverted :
    msetnx [] [[107], [118]] = (OutputValue.Integer 0, []) ∧
    msetnx [([107], Value.String [97])] [[107], [118]] =
      (OutputValue.Integer 1, [([107], Value.String [118])]) :=
  ⟨rfl, rfl⟩

/-- Claim C2: SET k v stores String(v) and replies Ok, and a following GET k
replies BulkString(v), for every prior map content and every value; in the
executor/core variant the same round trip holds whenever its SET replies Ok. -/
theorem set_then_get_roundtrip (m : MapData) (cm : CoreMapData) (k v : Bytes) :
    (mapSet m k v).1 = OutputValue.Ok ∧
    mapGet (mapSet m k v).2 k = OutputValue.BulkString v ∧
    ((coreSet cm k v).1 = OutputValue.Ok →
      coreGet (coreSet cm k v).2 k = OutputValue.BulkString v) := by
  refine ⟨rfl, ?_, ?_⟩
  · simp [mapSet, mapGet, lookupA_insertA_self]
  · intro h
    unfold coreSet at h ⊢
    by_cases hl : v.length > 536870912
    · rw [if_pos hl] at h
      simp at h
    · rw [if_neg hl]
      simp [coreGet, lookupA_insertA_self]

/-- Claim C2 witness: the round trip evaluated at key k (byte 107) and value
v (byte 118) on both empty maps. -/
theorem set_then_get_roundtrip_witness :
    mapGet (mapSet [] [107] [118]).2 [107] = OutputValue.BulkString [118] ∧
    coreGet (coreSet [] [107] [118]).2 [107] = OutputValue.BulkString [118] :=
  ⟨(set_then_get_roundtrip [] [] [107] [118]).2.1,
   (set_then_get_roundtrip [] [] [107] [118]).2.2 rfl⟩

/-- Claim C3: INCRBY and DECRBY (and INCR/DECR as delta 1): an absent key is
created holding the string 0 and then accumulated; a non-String value or an
unparseable string replies ERR value is not an integer with the map
unchanged; a sum or difference outside the signed 64-bit range replies ERR
integer overflow; otherwise the decimal rendering is written back and
Integer(new) is replied. -/
theorem incrby_decrby_spec (m : MapData) (k : Bytes) (n : Int)
    (hn : -9223372036854775808 ≤ n ∧ n ≤ 9223372036854775807) :
    (lookupA m k = none →
        incrby m k n =
          some (OutputValue.Integer n, insertA m k (Value.String (intToBytes n)))) ∧
    (lookupA m k = none →
        (-9223372036854775808 ≤ -n ∧ -n ≤ 9223372036854775807) →
        decrby m k n =
          some (OutputValue.Integer (-n), insertA m k (Value.String (intToBytes (-n))))) ∧
    (lookupA m k = none →
        ¬(-9223372036854775808 ≤ -n ∧ -n ≤ 9223372036854775807) →
        decrby m k n =
          some (OutputValue.Error errOverflow, insertA m k (Value.String [48]))) ∧
    (∀ v, lookupA m k = some v → (∀ s, v ≠ Value.String s) →
        incrby m k n = some (OutputValue.Error errNotInteger, m) ∧
        decrby m k n = some (OutputValue.Error errNotInteger, m)) ∧
    (∀ s, lookupA m k = some (Value.String s) → parseI64 s = none →
        incrby m k n = some (OutputValue.Error errNotInteger, m) ∧
        decrby m k n = some (OutputValue.Error errNotInteger, m)) ∧
    (∀ s old, lookupA m k = some (Value.String s) → parseI64 s = some old →
        ((-9223372036854775808 ≤ old + n ∧ old + n ≤ 9223372036854775807) →
            incrby m k n =
              some (OutputValue.Integer (old + n),
                insertA m k (Value.String (intToBytes (old + n))))) ∧
        (¬(-9223372036854775808 ≤ old + n ∧ old + n ≤ 9223372036854775807) →
            incrby m k n = some (OutputValue.Error errOverflow, m)) ∧
        ((-9223372036854775808 ≤ old - n ∧ old - n ≤ 9223372036854775807) →
            decrby m k n =
              some (OutputValue.Integer (old - n),
                insertA m k (Value.String (intToBytes (old - n))))) ∧
        (¬(-9223372036854775808 ≤ old - n ∧ old - n ≤ 9223372036854775807) →
            decrby m k n = some (OutputValue.Error errOverflow, m))) ∧
    incr m k = incrby m k 1 ∧ decr m k = decrby m k 1 := by
  have h48 : parseI64 [48] = some (0 : Int) := rfl
  refine ⟨?_, ?_, ?_, ?_, ?_, ?_, rfl, rfl⟩
  · intro h
    unfold incrby incrDecrCheckKeyValue
    rw [h]
    simp only [lookupA_insertA_self, h48]
    rw [if_pos (by omega)]
    simp [insertA_insertA]
  · intro h hr
    unfold decrby incrDecrCheckKeyValue
    rw [h]
    simp only [lookupA_insertA_self, h48]
    rw [if_pos (by omega)]
    simp [insertA_insertA]
  · intro h hr
    unfold decrby incrDecrCheckKeyValue
    rw [h]
    simp only [lookupA_insertA_self, h48]
    rw [if_neg (by omega)]
  · intro v h hns
    cases v with
    | String s => exact absurd rfl (hns s)
    | Hash h2 =>
      constructor
      · unfold incrby incrDecrCheckKeyValue
        rw [h]
      · unfold decrby incrDecrCheckKeyValue
        rw [h]
    | List l =>
      constructor
      · unfold incrby incrDecrCheckKeyValue
        rw [h]
      · unfold decrby incrDecrCheckKeyValue
        rw [h]
  · intro s h hp
    constructor
    · unfold incrby incrDecrCheckKeyValue
      rw [h]
      simp [hp]
    · unfold decrby incrDecrCheckKeyValue
      rw [h]
      simp [hp]
  · intro s old h hp
    have hchk : incrDecrCheckKeyValue m k = Except.ok m := by
      unfold incrDecrCheckKeyValue
      rw [h]
      simp [hp]
    refine ⟨?_, ?_, ?_, ?_⟩
    · intro hr
      unfold incrby
      rw [hchk]
      simp only [h, hp]
      rw [if_pos hr]
    · intro hr
      unfold incrby
      rw [hchk]
      simp only [h, hp]
      rw [if_neg hr]
    · intro hr
      unfold decrby
      rw [hchk]
      simp only [h, hp]
      rw [if_pos hr]
    · intro hr
      unfold decrby
      rw [hchk]
      simp only [h, hp]
      rw [if_neg hr]

/-- Claim C3 witness: the accumulator evaluated on an empty map at key k
(byte 107) with delta 5 for both directions. -/
theorem incrby_decrby_spec_witness :
    incrby [] [107] 5 = some (OutputValue.Integer 5, [([107], Value.String [53])]) ∧
    decrby [] [107] 5 = some (OutputValue.Integer (-5), [([107], Value.String [45, 53])]) := by
  constructor
  · exact (incrby_decrby_spec [] [107] 5 (by norm_num)).1 rfl
  · exact (incrby_decrby_spec [] [107] 5 (by norm_num)).2.1 rfl (by norm_num)

/-- Claim C4 counterexample: from an empty database, INCR k replies
Integer(1), and INCRBY k 9223372036854775806 then replies
Integer(9223372036854775807) - the sum is exactly i64::MAX, inside the
signed 64-bit range - so the produced reply bytes differ from the claimed
pair of an Integer(1) reply followed by an ERR integer overflow reply. -/
theorem scenario_s4_counterexample :
    incrCommand [] [[107]] = some (OutputValue.Integer 1, [([107], Value.String [49])]) ∧
    incrbyCommand [([107], Value.String [49])]
        [[107], str2bytes "9223372036854775806"] =
      some (OutputValue.Integer 9223372036854775807,
        [([107], Value.String (str2bytes "9223372036854775807"))]) ∧
    toBytesVec (OutputValue.Integer 1) ++
        toBytesVec (OutputValue.Integer 9223372036854775807) ≠
      toBytesVec (OutputValue.Integer 1) ++ toBytesVec (OutputValue.Error errOverflow) :=
  ⟨rfl, rfl, by decide⟩

/-- Claim C4 as amended: from an empty database, INCR k followed by
INCRBY k 9223372036854775806 produces exactly the reply bytes of Integer(1)
followed by Integer(9223372036854775807). -/
theorem scenario_s4_actual :
    incrCommand [] [[107]] = some (OutputValue.Integer 1, [([107], Value.String [49])]) ∧
    incrbyCommand [([107], Value.String [49])]
        [[107], str2bytes "9223372036854775806"] =
      some (OutputValue.Integer 9223372036854775807,
        [([107], Value.String (str2bytes "9223372036854775807"))]) ∧
    toBytesVec (OutputValue.Integer 1) ++
        toBytesVec (OutputValue.Integer 9223372036854775807) =
      str2bytes ":1\r\n:9223372036854775807\r\n" :=
  ⟨rfl, rfl, by decide⟩

/-- Claim C5: on the pattern question-mark star (bytes 63 42), whose compiled
nodes are all Question/Star with one question mark and one star, Finder::new
selects AllMatchWithLen(1), which accepts exactly the inputs of length one:
the two-byte input ab is rejected although its length exceeds the question
count, while the generic engine run_node accepts it on the same nodes. -/
theorem question_star_finder_exact_length :
    finderNew 4 [63, 42] = some (Finder.AllMatchWithLen 1) ∧
    doMatch 9 (Finder.AllMatchWithLen 1) [97, 98] = some false ∧
    doMatch 9 (Finder.AllMatchWithLen 1) [97] = some true ∧
    runNode 9 [97, 98] 0 false [Node.Question, Node.Star] = some true :=
  ⟨rfl, rfl, rfl, rfl⟩

/-- Claim C6: compiling the pattern star star (bytes 42 42) yields the nodes
Star Star, on which every optimise_nodes scan merges the pair into new_nodes
and sets changed, but new_nodes is never assigned back, so the outer loop
re-scans the unchanged nodes forever: for every iteration bound the loop has
not returned, and Finder::new never returns on that pattern.  The empty
pattern does compile to the no-match evaluator. -/
theorem optimise_nodes_nonterminating :
    (∀ fuel, optimiseNodes fuel [Node.Star, Node.Star] = none) ∧
    compilePattern [42, 42] = some [Node.Star, Node.Star] ∧
    (∀ fuel, finderNew fuel [42, 42] = none) ∧
    finderNew 1 [] = some Finder.NoMatch := by
  have hpass : optimisePass [Node.Star, Node.Star] = ([Node.Star], true) := rfl
  have hc : compilePattern [42, 42] = some [Node.Star, Node.Star] := rfl
  have hdiv : ∀ fuel, optimiseNodes fuel [Node.Star, Node.Star] = none := by
    intro fuel
    induction fuel with
    | zero => rfl
    | succ f ih => simp [optimiseNodes, hpass, ih]
  refine ⟨hdiv, hc, ?_, rfl⟩
  intro fuel
  simp [finderNew, hc, hdiv fuel]

/-- Claim C7: on a buffer holding a complete Array header and BulkString
header whose declared five-byte body plus terminator exceeds the two
remaining bytes ab, parse_resp yields no request but has irreversibly popped
the eight header bytes: the retained buffer is ab, not the original bytes. -/
theorem partial_bulkstring_consumes_prefix :
    parseResp 8 [42, 49, 13, 10, 36, 53, 13, 10, 97, 98] = some (none, [97, 98]) ∧
    [97, 98] ≠ [42, 49, 13, 10, 36, 53, 13, 10, 97, 98] :=
  ⟨rfl, by decide⟩

/-- Claim C8 counterexample: the executor/core COMMAND COUNT handler replies
Integer(19), the number of simple commands alone, while that registry has 27
dispatchable names once its seven subcommands and the dispatchable command
container root are counted; 19 is not 27. -/
theorem core_command_count_counterexample :
    coreCommandCountReply = OutputValue.Integer 19 ∧
    (specDispatchableNames coreSimpleNames [] coreContainers).length = 27 ∧
    (19 : Int) ≠ 27 :=
  ⟨rfl, rfl, by decide⟩

/-- Claim C8 as amended: CommandStore::count of the implementation registry
replies with exactly the number of dispatchable names including every
subcommand and the dispatchable container root (30), while the executor/core
count handler replies only with its simple-command count (19 of 27 names). -/
theorem command_count_amended :
    commandStoreCountReply =
      OutputValue.Integer
        (Int.ofNat
          (specDispatchableNames implSimpleNames implControllerNames implContainers).length) ∧
    commandStoreCount = 30 ∧
    coreCommandCountReply = OutputValue.Integer 19 ∧
    (specDispatchableNames coreSimpleNames [] coreContainers).length = 27 :=
  ⟨rfl, rfl, rfl, rfl⟩

/-- Claim C9 counterexample: dispatching through the command container, the
registered lowercase spelling count resolves to the count subcommand, but the
upper-case spelling COUNT replies ERR unknown subcommand - the first argument
is not lowercased before lookup. -/
theorem container_subcommand_uppercase_counterexample :
    containerExecute commandContainer (str2bytes "command") [str2bytes "count"] =
      some (Except.ok Interrupt.CommandCount) ∧
    containerExecute commandContainer (str2bytes "command") [str2bytes "COUNT"] =
      some (Except.error (OutputValue.Error (unknownSubMsg (str2bytes "command")))) :=
  ⟨rfl, rfl⟩

/-- Claim C9 as amended: container dispatch decodes the first argument with
BStr::to_str and looks it up verbatim, with no lowercasing: for every
container, any valid-UTF-8 first argument that is not byte-identical to a
registered subcommand name replies ERR unknown subcommand, while the
registered lowercase spelling resolves to its handler. -/
theorem container_subcommand_verbatim_lookup (c : ContainerCmd) (name sub : Bytes)
    (rest : List Bytes) (h1 : utf8Valid sub = true)
    (h2 : lookupA c.subcommands sub = none) :
    containerExecute c name (sub :: rest) =
      some (Except.error (OutputValue.Error (unknownSubMsg name))) ∧
    containerExecute commandContainer (str2bytes "command") [str2bytes "count"] =
      some (Except.ok Interrupt.CommandCount) := by
  constructor
  · have harity : containerIsArityCorrect c.rootHandler.isSome (rest.length + 1) = true := by
      unfold containerIsArityCorrect
      cases c.rootHandler.isSome <;> simp
    simp [containerExecute, harity, toStr, h1, h2]
  · rfl

/-- Claim C9 witness: the verbatim lookup evaluated on the command container
with the upper-case first argument COUNT. -/
theorem container_subcommand_verbatim_lookup_witness :
    containerExecute commandContainer (str2bytes "command") [str2bytes "COUNT"] =
      some (Except.error (OutputValue.Error (unknownSubMsg (str2bytes "command")))) ∧
    containerExecute commandContainer (str2bytes "command") [str2bytes "count"] =
      some (Except.ok Interrupt.CommandCount) :=
  container_subcommand_verbatim_lookup commandContainer (str2bytes "command")
    (str2bytes "COUNT") [] rfl rfl

/-- Claim C10: the executor/core Map::set replies ERR value is too large and
leaves the map unchanged whenever the value exceeds 512*1024*1024 bytes, and
stores BulkString(value) replying Ok otherwise. -/
theorem core_set_size_cap (cm : CoreMapData) (k v : Bytes) :
    (v.length > 536870912 → coreSet cm k v = (OutputValue.Error errTooLarge, cm)) ∧
    (v.length ≤ 536870912 →
      coreSet cm k v = (OutputValue.Ok, insertA cm k (OutputValue.BulkString v))) := by
  constructor
  · intro h
    unfold coreSet
    rw [if_pos h]
  · intro h
    unfold coreSet
    rw [if_neg (by omega)]

/-- Claim C10 witness: the cap evaluated at a value one byte over the limit
(rejected, map unchanged) and at a one-byte value (stored). -/
theorem core_set_size_cap_witness :
    coreSet [] [107] (List.replicate 536870913 0) = (OutputValue.Error errTooLarge, []) ∧
    coreSet [] [107] [97] = (OutputValue.Ok, [([107], OutputValue.BulkString [97])]) := by
  constructor
  · exact (core_set_size_cap [] [107] (List.replicate 536870913 0)).1
      (by rw [List.length_replicate]; norm_num)
  · exact (core_set_size_cap [] [107] [97]).2 (by norm_num)
